import Mathlib

/-
  Verification development for the api-gateway repository.

  The definitions below are a shallow embedding of the Python sources:
    - src/app/auth.py    : JWKS key caching and bearer-token validation
    - src/app/router.py  : route resolution and request forwarding
    - src/app/main.py    : endpoint wiring (rate-limiter configuration)

  Machine integers do not occur; timestamps, status codes and byte values
  are modelled as Nat. Fallible operations return explicit result types.
-/

namespace Gateway

/-! ## Key material and tokens (src/app/auth.py) -/

/-- One JWKS entry: a key identifier plus opaque public-key material.
    Models one element of the "keys" array of the JWKS document. -/
structure Jwk where
  kid : String
  material : String
deriving DecidableEq, Repr

/-- The key cache content: a mapping from kid to key, as built by the dict
    comprehension in get_public_keys (src/app/auth.py line 114). Represented
    as an association list with first-match lookup. -/
abbrev KeySet := List (String × Jwk)

/-- The remote JWKS document served at the well-known endpoint. -/
structure Jwks where
  keys : List Jwk
deriving DecidableEq, Repr

/-- Builds the kid-indexed dictionary from the fetched JWKS document
    (src/app/auth.py line 114). A Python dict comprehension lets a later
    duplicate kid overwrite an earlier one, so the list is reversed to make
    first-match lookup agree with last-occurrence-wins. -/
def buildKeys (ks : List Jwk) : KeySet :=
  ks.reverse.map (fun k => (k.kid, k))

/-- Dictionary lookup keys.get(kid) (src/app/auth.py line 146). -/
def lookupKey (s : KeySet) (kid : String) : Option Jwk :=
  match s.find? (fun p => p.1 == kid) with
  | some p => some p.2
  | none => none

/-- The unverified JWT header: key identifier (absent or possibly empty)
    and the signature algorithm name. -/
structure TokenHeader where
  kid : Option String
  alg : String
deriving DecidableEq, Repr

/-- The claim set embedded in a token: subject, expiry timestamp, audience,
    issuer, plus arbitrary additional claims. -/
structure Claims where
  sub : String
  exp : Nat
  aud : String
  iss : String
  extra : List (String × String)
deriving DecidableEq, Repr

/-- A symbolic RS256 signature: it records which private key's material
    produced it and exactly which header and claims were signed. The gateway
    treats signature verification as an opaque capability; this models that
    capability soundly (a signature verifies against key k exactly when it
    was produced by k's counterpart over this very header and claim set). -/
structure Signature where
  keyMaterial : String
  signedHeader : TokenHeader
  signedClaims : Claims
deriving DecidableEq, Repr

/-- A bearer token: header, claims and signature. -/
structure Token where
  header : TokenHeader
  claims : Claims
  sig : Signature
deriving DecidableEq, Repr

/-- Signature verification capability used by jwk.construct / jwt.decode:
    the signature must have been made with the matching key material over
    exactly this token's header and claims. -/
def verifySig (k : Jwk) (t : Token) : Bool :=
  t.sig.keyMaterial == k.material &&
  t.sig.signedHeader == t.header &&
  t.sig.signedClaims == t.claims

/-- Error taxonomy of the jose jwt.decode call as used by validate_token.
    All of these are subclasses of JWTError in the library. -/
inductive JwtErr where
  | signatureInvalid
  | expired
  | audienceMismatch
  | issuerMismatch
deriving DecidableEq, Repr

/-- Result of jwt.decode. -/
inductive DResult where
  | ok (claims : Claims)
  | err (e : JwtErr)
deriving DecidableEq, Repr

/-- Model of the jose library call jwt.decode(token, key, algorithms=
    atr, audience, issuer) made at src/app/auth.py lines 162-168.
    The library verifies the algorithm against the allowed list and the
    signature first (jws.verify), and only then validates claims, in the
    library's fixed order: exp, then aud, then iss; the first failing
    check raises. Expiry uses strict comparison with zero leeway
    (expired exactly when exp < now). -/
def jwtDecode (t : Token) (k : Jwk) (audience issuer : String) (now : Nat) : DResult :=
  if t.header.alg ≠ "RS256" then .err .signatureInvalid
  else if verifySig k t = false then .err .signatureInvalid
  else if t.claims.exp < now then .err .expired
  else if t.claims.aud ≠ audience then .err .audienceMismatch
  else if t.claims.iss ≠ issuer then .err .issuerMismatch
  else .ok t.claims

/-- The module-level mutable state of src/app/auth.py: the cached_keys
    global, None until the first successful fetch. -/
structure AuthState where
  cachedKeys : Option KeySet
deriving DecidableEq, Repr

/-- Result of one call to get_public_keys: the returned key set, the
    module state afterwards, and whether an outbound JWKS fetch happened. -/
structure KeysResult where
  keys : KeySet
  st : AuthState
  fetched : Bool
deriving DecidableEq, Repr

/-- get_public_keys (src/app/auth.py lines 92-116): return the cached keys
    when present; otherwise fetch the remote JWKS document once, index it
    by kid, store it in the global and return it. The remote document is a
    parameter standing for what the network would deliver; a failing fetch
    raises out of the function and is not modelled here because every claim
    below concerns calls whose fetch, if any, succeeds. -/
def get_public_keys (st : AuthState) (remote : Jwks) : KeysResult :=
  match st.cachedKeys with
  | some ks => ⟨ks, st, false⟩
  | none =>
    let ks := buildKeys remote.keys
    ⟨ks, ⟨some ks⟩, true⟩

/-- The error outcomes of validate_token, each an HTTPException with
    status 401 (src/app/auth.py lines 139, 148, 171). -/
inductive AuthFail where
  | missingKeyId
  | keyNotFound
  | invalidToken
deriving DecidableEq, Repr

/-- HTTP status attached to each validate_token failure: always 401. -/
def authHttpStatus (_ : AuthFail) : Nat := 401

/-- Detail string of each validate_token failure. -/
def authDetail : AuthFail → String
  | .missingKeyId => "Invalid token: missing key ID"
  | .keyNotFound => "Invalid token: key not found"
  | .invalidToken => "Invalid or expired token"

/-- Result of validate_token. -/
inductive VResult where
  | ok (claims : Claims)
  | err (e : AuthFail)
deriving DecidableEq, Repr

/-- Result of one call to validate_token together with the module state
    afterwards and whether an outbound fetch happened during the call. -/
structure ValidateOut where
  result : VResult
  st : AuthState
  fetched : Bool
deriving DecidableEq, Repr

/-- validate_token (src/app/auth.py lines 118-171): read the unverified
    header's kid ("if not key_id" treats both an absent and an empty kid as
    missing); resolve the key set through get_public_keys; look the kid up;
    construct the key and call jwt.decode; return the decoded payload, or
    map any JWTError to the single 401 invalid-or-expired failure. -/
def validate_token (st : AuthState) (remote : Jwks) (audience issuer : String)
    (t : Token) (now : Nat) : ValidateOut :=
  match t.header.kid with
  | none => ⟨.err .missingKeyId, st, false⟩
  | some kid =>
    if kid = "" then ⟨.err .missingKeyId, st, false⟩
    else
      let r := get_public_keys st remote
      match lookupKey r.keys kid with
      | none => ⟨.err .keyNotFound, r.st, r.fetched⟩
      | some k =>
        match jwtDecode t k audience issuer now with
        | .ok payload => ⟨.ok payload, r.st, r.fetched⟩
        | .err _ => ⟨.err .invalidToken, r.st, r.fetched⟩

/-! ## Repeated calls to get_public_keys (for claim C10) -/

/-- Folds a sequence of get_public_keys calls, one per remote document
    the endpoint would serve at that moment, collecting each call's
    returned key set and the number of outbound fetches performed. -/
def iterKeys (st : AuthState) : List Jwks → List KeySet × AuthState × Nat
  | [] => ([], st, 0)
  | remote :: rest =>
    let r := get_public_keys st remote
    let t := iterKeys r.st rest
    (r.keys :: t.1, t.2.1, (if r.fetched then 1 else 0) + t.2.2)

/-- Claim C1: for every token whose signature verifies against the
    currently-cached key material for its kid, whose exp lies in the future,
    and whose audience and issuer match the configured values, validate_token
    returns the token's embedded claim set unchanged (and performs no fetch,
    leaving the cache as it was). -/
theorem validate_token_returns_claims_unchanged
    (st : AuthState) (remote : Jwks) (audience issuer : String)
    (t : Token) (now : Nat) (ks : KeySet) (kid : String) (k : Jwk)
    (hcache : st.cachedKeys = some ks)
    (hkid : t.header.kid = some kid)
    (hkidne : kid ≠ "")
    (hfind : lookupKey ks kid = some k)
    (halg : t.header.alg = "RS256")
    (hsig : verifySig k t = true)
    (hexp : now < t.claims.exp)
    (haud : t.claims.aud = audience)
    (hiss : t.claims.iss = issuer) :
    validate_token st remote audience issuer t now = ⟨.ok t.claims, st, false⟩ := by
  have hnl : ¬ t.claims.exp < now := Nat.lt_asymm hexp
  unfold validate_token get_public_keys
  rw [hkid, hcache]
  simp only [hkidne, if_false]
  rw [hfind]
  simp [jwtDecode, halg, hsig, haud, hiss, hnl]

/-- Witness for claim C1 at a concrete cached key, token and clock. -/
theorem validate_token_returns_claims_unchanged_witness :
    validate_token ⟨some [("k1", ⟨"k1", "m1"⟩)]⟩ ⟨[]⟩ "aud1" "iss1"
      ⟨⟨some "k1", "RS256"⟩, ⟨"alice", 100, "aud1", "iss1", [("email", "a@x")]⟩,
        ⟨"m1", ⟨some "k1", "RS256"⟩, ⟨"alice", 100, "aud1", "iss1", [("email", "a@x")]⟩⟩⟩ 50
    = ⟨.ok ⟨"alice", 100, "aud1", "iss1", [("email", "a@x")]⟩,
        ⟨some [("k1", ⟨"k1", "m1"⟩)]⟩, false⟩ :=
  validate_token_returns_claims_unchanged _ _ _ _ _ _ _ "k1" ⟨"k1", "m1"⟩
    rfl rfl (by decide) rfl rfl (by decide) (by decide) rfl rfl

/-! ## Concrete fixtures used by witnesses and counterexamples -/

/-- A fixture key with kid k1. -/
def jwk1 : Jwk := ⟨"k1", "m1"⟩

/-- A fixture key with kid k2. -/
def jwk2 : Jwk := ⟨"k2", "m2"⟩

/-- A populated cache holding only jwk1. -/
def ks1 : KeySet := [("k1", jwk1)]

/-- Module state whose cache holds ks1. -/
def st1 : AuthState := ⟨some ks1⟩

/-- An empty remote JWKS document. -/
def remote0 : Jwks := ⟨[]⟩

/-- A remote JWKS document publishing both fixture keys. -/
def remote2 : Jwks := ⟨[jwk1, jwk2]⟩

/-- A token header naming kid k1 and RS256. -/
def hdr1 : TokenHeader := ⟨some "k1", "RS256"⟩

/-- A token header naming kid k2 and RS256. -/
def hdr2 : TokenHeader := ⟨some "k2", "RS256"⟩

/-- An expired claim set (exp 10) with matching audience and issuer. -/
def claimsExp : Claims := ⟨"bob", 10, "aud1", "iss1", []⟩

/-- A live claim set (exp 100) with matching audience and issuer. -/
def claims2 : Claims := ⟨"carol", 100, "aud1", "iss1", []⟩

/-- An expired token correctly signed by jwk1's counterpart. -/
def tokExp : Token := ⟨hdr1, claimsExp, ⟨"m1", hdr1, claimsExp⟩⟩

/-- An expired token whose signature does not verify against jwk1
    (it was produced with foreign key material). -/
def tokExpBadSig : Token := ⟨hdr1, claimsExp, ⟨"mX", hdr1, claimsExp⟩⟩

/-- A live token naming kid k2, correctly signed by jwk2's counterpart. -/
def tok2 : Token := ⟨hdr2, claims2, ⟨"m2", hdr2, claims2⟩⟩

/-- Claim C3 counterexample: at now = 50, a token whose exp (10) lies in the
    past but whose signature does not verify fails the signature check, not
    the expiry check — jwt.decode verifies the signature before any claim
    check, mirroring the spec's own step 3 before step 4 — so validation
    does not fail with the Expired variant regardless of signature validity;
    moreover validate_token collapses both failures into the same generic
    401, reporting no Expired variant at all. -/
theorem expired_before_signature_cex :
    tokExpBadSig.claims.exp < 50
    ∧ jwtDecode tokExpBadSig jwk1 "aud1" "iss1" 50 = .err .signatureInvalid
    ∧ JwtErr.signatureInvalid ≠ JwtErr.expired
    ∧ validate_token st1 remote0 "aud1" "iss1" tokExpBadSig 50
        = ⟨.err .invalidToken, st1, false⟩
    ∧ validate_token st1 remote0 "aud1" "iss1" tokExp 50
        = ⟨.err .invalidToken, st1, false⟩ := by
  decide

/-- Claim C3 as amended: for a token whose signature verifies (signature and
    algorithm are checked first), the post-signature checks run in the order
    expiry, audience, issuer, and only the first failing check's error is
    produced — in particular a past exp yields Expired regardless of
    audience and issuer; validate_token then maps any such failure to the
    single generic 401 invalid-or-expired error. -/
theorem expired_checked_before_audience_and_issuer
    (st : AuthState) (remote : Jwks) (audience issuer : String)
    (t : Token) (now : Nat) (ks : KeySet) (kid : String) (k : Jwk)
    (halg : t.header.alg = "RS256")
    (hsig : verifySig k t = true) :
    (t.claims.exp < now → jwtDecode t k audience issuer now = .err .expired)
    ∧ (¬ t.claims.exp < now → t.claims.aud ≠ audience →
        jwtDecode t k audience issuer now = .err .audienceMismatch)
    ∧ (¬ t.claims.exp < now → t.claims.aud = audience → t.claims.iss ≠ issuer →
        jwtDecode t k audience issuer now = .err .issuerMismatch)
    ∧ (st.cachedKeys = some ks → t.header.kid = some kid → kid ≠ "" →
        lookupKey ks kid = some k → t.claims.exp < now →
        validate_token st remote audience issuer t now
          = ⟨.err .invalidToken, st, false⟩) := by
  refine ⟨?_, ?_, ?_, ?_⟩
  · intro hlt
    simp [jwtDecode, halg, hsig, hlt]
  · intro hnl hna
    simp [jwtDecode, halg, hsig, hnl, hna]
  · intro hnl ha hni
    simp [jwtDecode, halg, hsig, hnl, ha, hni]
  · intro hcache hkid hne hfind hlt
    unfold validate_token get_public_keys
    rw [hkid, hcache]
    simp only [hne, if_false]
    rw [hfind]
    simp [jwtDecode, halg, hsig, hlt]

/-- Witness for the amended claim C3: the expired, correctly-signed fixture
    token is reported Expired by the decode step at now = 50. -/
theorem expired_checked_before_audience_and_issuer_witness :
    jwtDecode tokExp jwk1 "aud1" "iss1" 50 = .err .expired :=
  (expired_checked_before_audience_and_issuer st1 remote0 "aud1" "iss1"
    tokExp 50 ks1 "k1" jwk1 rfl (by decide)).1 (by decide)

/-- Claim C5 counterexample: with a populated cache holding only kid k1, a
    token naming kid k2 is rejected with the 401 key-not-found outcome and
    no outbound fetch happens (fetched = false) — even though the remote
    document at that moment publishes k2, so a refresh attempt would have
    found it. The miss of a populated cache does not trigger a refresh. -/
theorem unknown_kid_no_refresh_cex :
    validate_token st1 remote2 "aud1" "iss1" tok2 50
      = ⟨.err .keyNotFound, st1, false⟩
    ∧ lookupKey (buildKeys remote2.keys) "k2" = some jwk2 := by
  decide

/-- Claim C5 as amended: a kid lookup goes through get_public_keys, which
    fetches only when the cache has never been populated. On a never-
    populated cache, the 401 key-not-found outcome is returned only if the
    kid is still absent from the freshly fetched key set (one fetch is
    performed). On a populated cache, a missing kid yields the 401
    immediately with no refresh attempt: a miss of a populated cache never
    triggers a fetch. -/
theorem unknown_kid_refresh_only_when_unpopulated
    (st : AuthState) (remote : Jwks) (audience issuer : String)
    (t : Token) (now : Nat) (kid : String)
    (hkid : t.header.kid = some kid) (hne : kid ≠ "") :
    (st.cachedKeys = none → lookupKey (buildKeys remote.keys) kid = none →
      validate_token st remote audience issuer t now
        = ⟨.err .keyNotFound, ⟨some (buildKeys remote.keys)⟩, true⟩)
    ∧ (∀ ks, st.cachedKeys = some ks → lookupKey ks kid = none →
      validate_token st remote audience issuer t now
        = ⟨.err .keyNotFound, st, false⟩)
    ∧ authHttpStatus .keyNotFound = 401 := by
  refine ⟨?_, ?_, rfl⟩
  · intro hnone hmiss
    unfold validate_token get_public_keys
    rw [hkid, hnone]
    simp only [hne, if_false]
    rw [hmiss]
  · intro ks hcache hmiss
    unfold validate_token get_public_keys
    rw [hkid, hcache]
    simp only [hne, if_false]
    rw [hmiss]

/-- Witness for the amended claim C5: on a never-populated cache with an
    empty remote document, the k2 token is rejected after one fetch; on the
    populated fixture cache, the same token is rejected with no fetch. -/
theorem unknown_kid_refresh_only_when_unpopulated_witness :
    validate_token ⟨none⟩ remote0 "aud1" "iss1" tok2 50
      = ⟨.err .keyNotFound, ⟨some (buildKeys remote0.keys)⟩, true⟩
    ∧ validate_token st1 remote0 "aud1" "iss1" tok2 50
      = ⟨.err .keyNotFound, st1, false⟩ :=
  ⟨(unknown_kid_refresh_only_when_unpopulated ⟨none⟩ remote0 "aud1" "iss1"
      tok2 50 "k2" rfl (by decide)).1 rfl rfl,
   (unknown_kid_refresh_only_when_unpopulated st1 remote0 "aud1" "iss1"
      tok2 50 "k2" rfl (by decide)).2.1 ks1 rfl rfl⟩

/-! ## Concurrent calls to get_public_keys (for claim C6)

Under asyncio, code between awaits runs atomically. get_public_keys has one
suspension point: the outbound HTTP fetch. Each concurrent call therefore
executes as two atomic segments: (1) check the cache; if populated return
it, otherwise issue the fetch and suspend; (2) resume with the response,
store the indexed keys in the global and return them. The model below runs
any interleaving of these segments across a list of tasks. -/

/-- Progress of one task through get_public_keys: about to run the cache
    check, suspended in the outbound fetch, or returned with a key set. -/
inductive TaskPc where
  | ready
  | fetching
  | done (result : KeySet)
deriving DecidableEq, Repr

/-- Whether a task is still before its cache check. -/
def isReady : TaskPc → Bool
  | .ready => true
  | _ => false

/-- Number of tasks still before their cache check. -/
def countReady : List TaskPc → Nat
  | [] => 0
  | .ready :: tl => countReady tl + 1
  | _ :: tl => countReady tl

/-- Global system state: the shared cached_keys global, the number of
    outbound JWKS fetches issued so far, and each task's progress. -/
structure SysState where
  cache : Option KeySet
  fetches : Nat
  tasks : List TaskPc
deriving DecidableEq, Repr

/-- One atomic segment of task i. A ready task checks the shared cache:
    populated means it completes with the cached set and no fetch; empty
    means it issues its own outbound fetch and suspends. A fetching task
    resumes, stores the fetched document's indexed keys in the shared cache
    and completes with them. Out-of-range or completed tasks do nothing. -/
def stepSys (remote : Jwks) (st : SysState) (i : Nat) : SysState :=
  match st.tasks[i]? with
  | none => st
  | some .ready =>
    match st.cache with
    | some ks => { st with tasks := st.tasks.set i (.done ks) }
    | none => { st with tasks := st.tasks.set i .fetching, fetches := st.fetches + 1 }
  | some .fetching =>
    let ks := buildKeys remote.keys
    { st with cache := some ks, tasks := st.tasks.set i (.done ks) }
  | some (.done _) => st

/-- Runs a schedule: a list of task indices executed in order. -/
def runSched (remote : Jwks) (st : SysState) : List Nat → SysState
  | [] => st
  | i :: rest => runSched remote (stepSys remote st i) rest

/-- Two tasks both about to call get_public_keys on an empty cache. -/
def twoReady : SysState := ⟨none, 0, [.ready, .ready]⟩

/-- Invariant maintained by every schedule: fetches stay bounded by the
    number of tasks that have passed their cache check, the cache only ever
    holds the indexed remote document and only after a fetch, every
    completed task returned that same indexed document, and any progress at
    all implies at least one fetch was issued (the cache starts empty). -/
def SysInv (remote : Jwks) (st : SysState) : Prop :=
  st.fetches + countReady st.tasks ≤ st.tasks.length
  ∧ (∀ ks, st.cache = some ks → ks = buildKeys remote.keys ∧ 1 ≤ st.fetches)
  ∧ (∀ pc ∈ st.tasks, ∀ ks, pc = .done ks → ks = buildKeys remote.keys)
  ∧ ((∃ pc ∈ st.tasks, isReady pc = false) → 1 ≤ st.fetches)

lemma countReady_set_of_ready (l : List TaskPc) (i : Nat) (b : TaskPc)
    (h : l[i]? = some .ready) (hb : isReady b = false) :
    countReady (l.set i b) + 1 = countReady l := by
  induction l generalizing i with
  | nil => simp at h
  | cons a tl ih =>
    cases i with
    | zero =>
      simp only [List.getElem?_cons_zero, Option.some.injEq] at h
      subst h
      cases b <;> simp [countReady, isReady] at hb ⊢
    | succ j =>
      simp only [List.getElem?_cons_succ] at h
      have := ih j h
      cases a <;> simp [countReady, List.set] <;> omega

lemma countReady_set_of_not_ready (l : List TaskPc) (i : Nat) (pc b : TaskPc)
    (h : l[i]? = some pc) (hpc : isReady pc = false) (hb : isReady b = false) :
    countReady (l.set i b) = countReady l := by
  induction l generalizing i with
  | nil => simp at h
  | cons a tl ih =>
    cases i with
    | zero =>
      simp only [List.getElem?_cons_zero, Option.some.injEq] at h
      subst h
      cases a <;> simp [isReady] at hpc <;> cases b <;>
        simp [countReady, isReady] at hb ⊢
    | succ j =>
      simp only [List.getElem?_cons_succ] at h
      have := ih j h
      cases a <;> simp [countReady, List.set] <;> omega

lemma sysInv_step (remote : Jwks) (st : SysState) (i : Nat)
    (h : SysInv remote st) : SysInv remote (stepSys remote st i) := by
  obtain ⟨hbound, hcache, htasks, hstart⟩ := h
  cases hget : st.tasks[i]? with
  | none =>
    have he : stepSys remote st i = st := by simp [stepSys, hget]
    rw [he]
    exact ⟨hbound, hcache, htasks, hstart⟩
  | some pc =>
    have hmem : pc ∈ st.tasks := List.getElem?_mem hget
    cases pc with
    | ready =>
      cases hc : st.cache with
      | some ks =>
        obtain ⟨hks, hf⟩ := hcache ks hc
        have he : stepSys remote st i
            = { st with tasks := st.tasks.set i (.done ks) } := by
          simp [stepSys, hget, hc]
        rw [he]
        dsimp only [SysInv]
        have hcr := countReady_set_of_ready st.tasks i (.done ks) hget rfl
        refine ⟨?_, ?_, ?_, ?_⟩
        · simp only [List.length_set]; omega
        · intro ks2 h2; exact hcache ks2 h2
        · intro pc2 hpc2 ks2 hks2
          rcases List.mem_or_eq_of_mem_set hpc2 with hin | hbe
          · exact htasks pc2 hin ks2 hks2
          · subst hbe; cases hks2; exact hks
        · intro _; exact hf
      | none =>
        have he : stepSys remote st i
            = { st with tasks := st.tasks.set i .fetching,
                        fetches := st.fetches + 1 } := by
          simp [stepSys, hget, hc]
        rw [he]
        dsimp only [SysInv]
        have hcr := countReady_set_of_ready st.tasks i .fetching hget rfl
        refine ⟨?_, ?_, ?_, ?_⟩
        · simp only [List.length_set]; omega
        · intro ks2 h2; rw [hc] at h2; simp at h2
        · intro pc2 hpc2 ks2 hks2
          rcases List.mem_or_eq_of_mem_set hpc2 with hin | hbe
          · exact htasks pc2 hin ks2 hks2
          · subst hbe; cases hks2
        · intro _; omega
    | fetching =>
      have hf : 1 ≤ st.fetches := hstart ⟨.fetching, hmem, rfl⟩
      have he : stepSys remote st i
          = { st with cache := some (buildKeys remote.keys),
                      tasks := st.tasks.set i (.done (buildKeys remote.keys)) } := by
        simp [stepSys, hget]
      rw [he]
      dsimp only [SysInv]
      have hcr := countReady_set_of_not_ready st.tasks i .fetching
        (.done (buildKeys remote.keys)) hget rfl rfl
      refine ⟨?_, ?_, ?_, ?_⟩
      · simp only [List.length_set]; omega
      · intro ks2 h2
        simp only [Option.some.injEq] at h2
        exact ⟨h2.symm, hf⟩
      · intro pc2 hpc2 ks2 hks2
        rcases List.mem_or_eq_of_mem_set hpc2 with hin | hbe
        · exact htasks pc2 hin ks2 hks2
        · subst hbe; cases hks2; rfl
      · intro _; exact hf
    | done ks =>
      have he : stepSys remote st i = st := by simp [stepSys, hget]
      rw [he]
      exact ⟨hbound, hcache, htasks, hstart⟩

lemma sysInv_runSched (remote : Jwks) (sched : List Nat) (st : SysState)
    (h : SysInv remote st) : SysInv remote (runSched remote st sched) := by
  induction sched generalizing st with
  | nil => exact h
  | cons i rest ih => exact ih _ (sysInv_step remote st i h)

lemma runSched_tasks_length (remote : Jwks) (sched : List Nat) (st : SysState) :
    (runSched remote st sched).tasks.length = st.tasks.length := by
  induction sched generalizing st with
  | nil => rfl
  | cons i rest ih =>
    rw [runSched, ih]
    unfold stepSys
    cases hget : st.tasks[i]? with
    | none => rfl
    | some pc =>
      cases pc with
      | ready => cases st.cache <;> simp [List.length_set]
      | fetching => simp [List.length_set]
      | done ks => rfl

/-- Claim C6 counterexample: two concurrent validations that both miss the
    empty key cache issue two outbound JWKS fetches, not one. In the
    schedule below both tasks run their cache check before either fetch
    completes, so each observes None and each issues its own fetch: the
    completed run ends with fetches = 2, refuting the exactly-one-fetch
    (single-flight) property. -/
theorem concurrent_miss_two_fetches_cex :
    runSched remote2 twoReady [0, 1, 0, 1]
      = ⟨some (buildKeys remote2.keys), 2,
          [.done (buildKeys remote2.keys), .done (buildKeys remote2.keys)]⟩
    ∧ (2 : Nat) ≠ 1 := by
  decide

/-- Claim C6 as amended: there is no single-flight de-duplication — every
    task that performs its cache check while the cache is still empty issues
    its own outbound fetch, so a run of N concurrent misses performs between
    1 and N fetches (two tasks reach exactly 2 under the simultaneous-miss
    schedule). What survives of the claim is consistency: every fetch
    retrieves the same remote document, so all completed validations obtain
    the identical key set regardless of schedule. -/
theorem concurrent_miss_fetch_bounds (remote : Jwks) (n : Nat) (sched : List Nat) :
    (runSched remote ⟨none, 0, List.replicate n .ready⟩ sched).fetches ≤ n
    ∧ (∀ ks, TaskPc.done ks ∈ (runSched remote ⟨none, 0, List.replicate n .ready⟩ sched).tasks →
        ks = buildKeys remote.keys)
    ∧ ((∃ ks, TaskPc.done ks ∈ (runSched remote ⟨none, 0, List.replicate n .ready⟩ sched).tasks) →
        1 ≤ (runSched remote ⟨none, 0, List.replicate n .ready⟩ sched).fetches)
    ∧ (runSched remote twoReady [0, 1]).fetches = 2 := by
  have hinit : SysInv remote ⟨none, 0, List.replicate n .ready⟩ := by
    refine ⟨?_, ?_, ?_, ?_⟩
    · have : countReady (List.replicate n .ready) = n := by
        induction n with
        | zero => rfl
        | succ m ih => simp [List.replicate, countReady, ih]
      simp [this]
    · intro ks h2; simp at h2
    · intro pc hpc ks hks
      rw [List.eq_of_mem_replicate hpc] at hks; cases hks
    · rintro ⟨pc, hpc, hr⟩
      rw [List.eq_of_mem_replicate hpc] at hr; simp [isReady] at hr
  obtain ⟨hbound, hcache, htasks, hstart⟩ := sysInv_runSched remote sched _ hinit
  refine ⟨?_, ?_, ?_, rfl⟩
  · have hlen := runSched_tasks_length remote sched ⟨none, 0, List.replicate n .ready⟩
    simp only [List.length_replicate] at hlen
    omega
  · intro ks hks
    exact htasks _ hks ks rfl
  · rintro ⟨ks, hks⟩
    exact hstart ⟨.done ks, hks, rfl⟩

/-- Witness for the amended claim C6: instantiated with two tasks and the
    interleaved schedule, both completed tasks hold the fetched key set and
    the fetch count lies in the stated bounds. -/
theorem concurrent_miss_fetch_bounds_witness :
    (runSched remote2 ⟨none, 0, List.replicate 2 .ready⟩ [0, 1, 0, 1]).fetches ≤ 2
    ∧ 1 ≤ (runSched remote2 ⟨none, 0, List.replicate 2 .ready⟩ [0, 1, 0, 1]).fetches :=
  ⟨(concurrent_miss_fetch_bounds remote2 2 [0, 1, 0, 1]).1,
   (concurrent_miss_fetch_bounds remote2 2 [0, 1, 0, 1]).2.2.1
     ⟨buildKeys remote2.keys, by decide⟩⟩

/-- Claim C10: once get_public_keys holds a cached key set, every subsequent
    call returns that identical mapping, performs no network fetch, and
    leaves the cache exactly as it was, for any sequence of remote documents
    the issuer might publish afterwards: the cache is never invalidated,
    replaced or extended during the life of the process. -/
theorem get_public_keys_cached_forever (ks : KeySet) (remotes : List Jwks) :
    iterKeys ⟨some ks⟩ remotes
      = (remotes.map (fun _ => ks), ⟨some ks⟩, 0) := by
  induction remotes with
  | nil => rfl
  | cons r rest ih =>
    simp [iterKeys, get_public_keys, ih]

/-! ## Route resolution (src/app/router.py) -/

/-- Paths, prefixes, URLs and query strings are Python strings manipulated
    by slicing and concatenation; they are modelled as lists of characters. -/
abbrev Str := List Char

/-- The route table: pairs of path prefix and backend base URL, iterated in
    insertion order (a Python dict preserves insertion order). -/
abbrev RouteTable := List (Str × Str)

/-- Default value of the USER_SERVICE_URL environment lookup. -/
def USER_SERVICE_URL : Str := ("http://localhost:8001").toList

/-- Default value of the ORDER_SERVICE_URL environment lookup. -/
def ORDER_SERVICE_URL : Str := ("http://localhost:8002").toList

/-- The ROUTES dict of src/app/router.py lines 15-18. -/
def ROUTES : RouteTable :=
  [(("/users").toList, USER_SERVICE_URL), (("/orders").toList, ORDER_SERVICE_URL)]

/-- get_backend_url (src/app/router.py lines 87-100): scan the route table
    in storage order and return the backend of the first route whose prefix
    the path starts with, or none. -/
def get_backend_url (routes : RouteTable) (path : Str) : Option Str :=
  match routes.find? (fun r => r.1.isPrefixOf path) with
  | some r => some r.2
  | none => none

/-- Modelled from the spec: the longest-prefix-wins resolution policy of
    spec section 4.3 ("when multiple prefixes match, the longest prefix
    wins"), written only to be compared against get_backend_url. Among the
    matching routes it keeps the first of strictly greatest prefix length. -/
def resolveLongest (routes : RouteTable) (path : Str) : Option Str :=
  match (routes.filter (fun r => r.1.isPrefixOf path)).foldl
      (fun acc r =>
        match acc with
        | none => some r
        | some b => if b.1.length < r.1.length then some r else some b) none with
  | some r => some r.2
  | none => none

/-- A route table with two overlapping prefixes of different lengths,
    listed shortest first. -/
def routesAB : RouteTable := [(("/a").toList, ("A").toList), (("/ab").toList, ("B").toList)]

/-- The same two routes registered in the opposite order. -/
def routesBA : RouteTable := [(("/ab").toList, ("B").toList), (("/a").toList, ("A").toList)]

/-! ## Request forwarding (src/app/router.py lines 20-85) -/

/-- The inbound client request as forward_request reads it: method, URL
    path, raw query string (empty when absent), headers (Starlette matches
    header names case-insensitively; names are normalised to lowercase
    here), and the body bytes that request.body() would yield. -/
structure InRequest where
  method : String
  path : Str
  query : Str
  headers : List (String × String)
  body : List Nat
deriving DecidableEq, Repr

/-- Header dictionary lookup (request.headers[name]), first match. -/
def lookupHeader (hs : List (String × String)) (name : String) : Option String :=
  match hs.find? (fun p => p.1 == name) with
  | some p => some p.2
  | none => none

/-- The outbound request assembled by forward_request. -/
structure OutRequest where
  method : String
  url : Str
  headers : List (String × String)
  body : Option (List Nat)
deriving DecidableEq, Repr

/-- The header allow-list iterated at src/app/router.py line 54. -/
def allowedHeaders : List String := ["authorization", "content-type", "accept"]

/-- The methods for which the body is read (src/app/router.py line 48). -/
def bodyMethods : List String := ["POST", "PUT", "PATCH"]

/-- forward_request, request-building half (src/app/router.py lines 32-57):
    strip the matched prefix from the path by position, substituting "/"
    when the remainder is empty; append "?" and the query string when the
    query is nonempty; read and attach the body only for POST/PUT/PATCH;
    copy exactly the allow-listed headers that are present. -/
def buildOutbound (req : InRequest) (backend_url route_prefix : Str) : OutRequest :=
  let backend_path0 := req.path.drop route_prefix.length
  let backend_path := if backend_path0 = [] then ("/").toList else backend_path0
  let full0 := backend_url ++ backend_path
  let full_backend_url :=
    if req.query = [] then full0 else full0 ++ ("?").toList ++ req.query
  let body := if req.method ∈ bodyMethods then some req.body else none
  let headers := allowedHeaders.filterMap
    (fun hn => (lookupHeader req.headers hn).map (fun v => (hn, v)))
  ⟨req.method, full_backend_url, headers, body⟩

/-- The failure modes the outbound httpx call can raise, each carrying the
    library exception text str(e). ConnectError and ConnectTimeout are the
    exact classes the first except clause catches (line 76); ReadTimeout —
    raised when the 30-second whole-call timeout elapses after the
    connection phase — and every other exception fall through to the
    generic handler (line 81). -/
inductive HttpxError where
  | connectError (msg : String)
  | connectTimeout (msg : String)
  | readTimeout (msg : String)
  | otherError (msg : String)
deriving DecidableEq, Repr

/-- A backend response as httpx delivers it: status code, body bytes and
    headers. -/
structure BackendResponse where
  status : Nat
  content : List Nat
  headers : List (String × String)
deriving DecidableEq, Repr

/-- Outcome of the outbound call. -/
inductive Outcome where
  | success (resp : BackendResponse)
  | failure (e : HttpxError)
deriving DecidableEq, Repr

/-- What forward_request returns to the client: either the relayed backend
    response (Response(content, status_code, headers), lines 69-74) or a
    gateway-originated JSONResponse whose body is a one-field JSON object
    holding the given error string. -/
inductive GatewayReply where
  | relay (status : Nat) (content : List Nat) (headers : List (String × String))
  | jsonError (status : Nat) (errorMsg : String)
deriving DecidableEq, Repr

/-- Headers of a reply (empty for the structured JSON error bodies). -/
def replyHeaders : GatewayReply → List (String × String)
  | .relay _ _ hs => hs
  | .jsonError _ _ => []

/-- forward_request, response half (src/app/router.py lines 58-85): relay
    the backend status, content and full header dict verbatim on success;
    map ConnectError and ConnectTimeout to a 503 with a fixed body; map
    every other exception e — ReadTimeout included — to a 500 whose body
    embeds str(e). -/
def forward_response : Outcome → GatewayReply
  | .success r => .relay r.status r.content r.headers
  | .failure (.connectError _) => .jsonError 503 "Backend service unavailable"
  | .failure (.connectTimeout _) => .jsonError 503 "Backend service unavailable"
  | .failure (.readTimeout m) => .jsonError 500 ("Gateway error: " ++ m)
  | .failure (.otherError m) => .jsonError 500 ("Gateway error: " ++ m)

/-- forward_request (src/app/router.py lines 20-85) in full: build the
    outbound request, hand it to the network (a function from the built
    request to an outcome) and translate the outcome; the built request is
    returned alongside for inspection. -/
def forward_request (req : InRequest) (backend_url route_prefix : Str)
    (net : OutRequest → Outcome) : OutRequest × GatewayReply :=
  let out := buildOutbound req backend_url route_prefix
  (out, forward_response (net out))

/-! ## Theorems about routing and forwarding -/

lemma users_chars : ("/users").toList = ['/', 'u', 's', 'e', 'r', 's'] := rfl

lemma orders_chars : ("/orders").toList = ['/', 'o', 'r', 'd', 'e', 'r', 's'] := rfl

/-- No path starts with both of the repository's two route prefixes: their
    second characters differ. -/
lemma not_users_and_orders (p : Str) :
    ¬(("/users").toList.isPrefixOf p = true ∧ ("/orders").toList.isPrefixOf p = true) := by
  rintro ⟨h1, h2⟩
  rw [users_chars] at h1
  rw [orders_chars] at h2
  match p with
  | [] => simp [List.isPrefixOf] at h1
  | [c] => simp [List.isPrefixOf] at h1
  | c1 :: c2 :: rest =>
    simp only [List.isPrefixOf, Bool.and_eq_true, beq_iff_eq] at h1 h2
    exact absurd (h1.2.1.trans h2.2.1.symm) (by decide)

/-- Claim C2 counterexample: with the overlapping prefixes /a and /ab, the
    resolver returns the backend of the first route in storage order, not of
    the longest matching prefix — registering the routes in the opposite
    order changes the answer for the same path — and no load-time rejection
    of any kind exists in src/app/router.py. -/
theorem route_longest_prefix_cex :
    get_backend_url routesAB (("/ab").toList) = some (("A").toList)
    ∧ resolveLongest routesAB (("/ab").toList) = some (("B").toList)
    ∧ get_backend_url routesBA (("/ab").toList) = some (("B").toList)
    ∧ (("A").toList : Str) ≠ ("B").toList := by
  decide

/-- Claim C2 as amended: get_backend_url returns the backend of the first
    matching prefix in the table's storage order, so for overlapping
    prefixes of different lengths the result depends on registration order
    and there is no load-time ambiguity check. On the repository's actual
    ROUTES table, however, no path can match more than one prefix, so
    resolution there is deterministic, order-independent and coincides with
    the longest-prefix policy; moreover two distinct prefixes of equal
    length can never both match one path (an equal-length tie is
    impossible, not rejected). -/
theorem routes_first_match_on_actual_table :
    (∀ p : Str, get_backend_url ROUTES p = resolveLongest ROUTES p)
    ∧ (∀ p : Str, get_backend_url ROUTES.reverse p = get_backend_url ROUTES p)
    ∧ (∀ (pre1 pre2 p : Str), pre1.length = pre2.length →
        pre1.isPrefixOf p = true → pre2.isPrefixOf p = true → pre1 = pre2) := by
  refine ⟨?_, ?_, ?_⟩
  · intro p
    cases hu : (['/', 'u', 's', 'e', 'r', 's'] : Str).isPrefixOf p <;>
      cases ho : (['/', 'o', 'r', 'd', 'e', 'r', 's'] : Str).isPrefixOf p
    · simp [get_backend_url, resolveLongest, ROUTES, List.find?, List.filter, hu, ho]
    · simp [get_backend_url, resolveLongest, ROUTES, List.find?, List.filter, hu, ho]
    · simp [get_backend_url, resolveLongest, ROUTES, List.find?, List.filter, hu, ho]
    · exact absurd ⟨hu, ho⟩ (not_users_and_orders p)
  · intro p
    cases hu : (['/', 'u', 's', 'e', 'r', 's'] : Str).isPrefixOf p <;>
      cases ho : (['/', 'o', 'r', 'd', 'e', 'r', 's'] : Str).isPrefixOf p
    · simp [get_backend_url, ROUTES, List.find?, List.filter, hu, ho]
    · simp [get_backend_url, ROUTES, List.find?, List.filter, hu, ho]
    · simp [get_backend_url, ROUTES, List.find?, List.filter, hu, ho]
    · exact absurd ⟨hu, ho⟩ (not_users_and_orders p)
  · intro pre1 pre2 p hlen h1 h2
    have p1 := List.isPrefixOf_iff_prefix.mp h1
    have p2 := List.isPrefixOf_iff_prefix.mp h2
    exact (List.prefix_of_prefix_length_le p1 p2 (le_of_eq hlen)).eq_of_length hlen

/-- Witness for the amended claim C2: both resolvers agree on a concrete
    path over the shipped table, and the equal-length-prefix fact applied at
    a concrete path forces the two prefixes to be equal. -/
theorem routes_first_match_on_actual_table_witness :
    get_backend_url ROUTES (("/users/42").toList)
      = resolveLongest ROUTES (("/users/42").toList)
    ∧ (("/ab").toList : Str) = ("/ab").toList :=
  ⟨routes_first_match_on_actual_table.1 (("/users/42").toList),
   routes_first_match_on_actual_table.2.2 (("/ab").toList) (("/ab").toList)
     (("/abc").toList) rfl (by decide) (by decide)⟩

/-- A backend response carrying hop-by-hop headers next to a custom one. -/
def hopResp : BackendResponse :=
  ⟨200, [123, 125],
   [("connection", "keep-alive"), ("transfer-encoding", "chunked"), ("x-trace", "abc")]⟩

/-- Claim C4 counterexample: a successful backend response whose header
    dict contains the hop-by-hop headers connection and transfer-encoding
    is relayed with those headers still present — forward_request copies
    dict(response.headers) wholesale and strips nothing. -/
theorem relay_keeps_hop_headers_cex :
    forward_response (.success hopResp)
      = .relay 200 [123, 125]
          [("connection", "keep-alive"), ("transfer-encoding", "chunked"),
           ("x-trace", "abc")]
    ∧ ("connection", "keep-alive") ∈ replyHeaders (forward_response (.success hopResp))
    ∧ ("transfer-encoding", "chunked") ∈ replyHeaders (forward_response (.success hopResp)) := by
  decide

/-- Claim C4 as amended: on success the backend's status code, body bytes
    and headers are all relayed unchanged — including hop-by-hop headers
    such as connection and transfer-encoding, which are not removed — and
    in particular a custom header such as X-Trace is preserved. -/
theorem relay_unchanged_including_hop_headers (r : BackendResponse) :
    forward_response (.success r) = .relay r.status r.content r.headers
    ∧ replyHeaders (forward_response (.success r)) = r.headers
    ∧ (∀ v, ("x-trace", v) ∈ r.headers →
        ("x-trace", v) ∈ replyHeaders (forward_response (.success r))) := by
  refine ⟨rfl, rfl, ?_⟩
  intro v hv
  simpa [forward_response, replyHeaders] using hv

/-- Witness for the amended claim C4: the X-Trace header of the fixture
    response survives relaying (as do its hop-by-hop neighbours). -/
theorem relay_unchanged_including_hop_headers_witness :
    ("x-trace", "abc") ∈ replyHeaders (forward_response (.success hopResp)) :=
  (relay_unchanged_including_hop_headers hopResp).2.2 "abc" (by decide)

/-- Claim C7 counterexample: a ReadTimeout — the exception raised when the
    30-second whole-call timeout elapses after the connection phase — is
    not caught by the (ConnectError, ConnectTimeout) clause, so it is
    mapped to a 500, not a 503; and the 500 body embeds the raw exception
    text str(e) behind the Gateway error prefix. -/
theorem gateway_error_leaks_exception_text_cex :
    forward_response (.failure (.readTimeout "timed out"))
      = .jsonError 500 ("Gateway error: " ++ "timed out")
    ∧ forward_response (.failure (.otherError "division by zero"))
      = .jsonError 500 ("Gateway error: " ++ "division by zero")
    ∧ (500 : Nat) ≠ 503 := by
  decide

/-- Claim C7 as amended: connection failures and connect-phase timeouts
    yield a 503 with a fixed structured body that never depends on the
    exception; a timeout elapsing after the connection phase (ReadTimeout)
    and every other unexpected failure yield a 500 whose body is the raw
    exception text prefixed with Gateway error. -/
theorem forward_error_mapping (m : String) :
    forward_response (.failure (.connectError m))
      = .jsonError 503 "Backend service unavailable"
    ∧ forward_response (.failure (.connectTimeout m))
      = .jsonError 503 "Backend service unavailable"
    ∧ forward_response (.failure (.readTimeout m))
      = .jsonError 500 ("Gateway error: " ++ m)
    ∧ forward_response (.failure (.otherError m))
      = .jsonError 500 ("Gateway error: " ++ m) :=
  ⟨rfl, rfl, rfl, rfl⟩

/-- Claim C8: for a matched route (the prefix is a prefix of the path) the
    outbound request keeps the inbound method; its URL is the backend base
    address plus the path with the matched prefix stripped, substituting
    "/" for an empty remainder, plus the inbound query string verbatim when
    present; its headers are exactly the allow-listed inbound headers
    (everything else is dropped); and it carries the inbound body exactly
    when the method is POST, PUT or PATCH. -/
theorem outbound_request_matches_spec
    (req : InRequest) (backend_url route_prefix : Str)
    (h : route_prefix.isPrefixOf req.path = true) :
    (buildOutbound req backend_url route_prefix).method = req.method
    ∧ (∃ suffix, req.path = route_prefix ++ suffix
        ∧ (buildOutbound req backend_url route_prefix).url
            = backend_url ++ (if suffix = [] then ("/").toList else suffix)
              ++ (if req.query = [] then [] else ("?").toList ++ req.query))
    ∧ (∀ hn v, (hn, v) ∈ (buildOutbound req backend_url route_prefix).headers →
        hn ∈ allowedHeaders ∧ lookupHeader req.headers hn = some v)
    ∧ (∀ hn, hn ∈ allowedHeaders → ∀ v, lookupHeader req.headers hn = some v →
        (hn, v) ∈ (buildOutbound req backend_url route_prefix).headers)
    ∧ (req.method ∈ bodyMethods →
        (buildOutbound req backend_url route_prefix).body = some req.body)
    ∧ (req.method ∉ bodyMethods →
        (buildOutbound req backend_url route_prefix).body = none) := by
  obtain ⟨t, ht⟩ := List.isPrefixOf_iff_prefix.mp h
  refine ⟨rfl, ⟨t, ht.symm, ?_⟩, ?_, ?_, ?_, ?_⟩
  · simp only [buildOutbound]
    rw [← ht, List.drop_left]
    by_cases hq : req.query = [] <;> by_cases hsuf : t = [] <;>
      simp [hq, hsuf, List.append_assoc]
  · intro hn v hmem
    simp only [buildOutbound, List.mem_filterMap] at hmem
    obtain ⟨a, ha, hfa⟩ := hmem
    cases hl : lookupHeader req.headers a with
    | none => rw [hl] at hfa; simp at hfa
    | some w =>
      rw [hl] at hfa
      simp only [Option.map_some', Option.some.injEq, Prod.mk.injEq] at hfa
      obtain ⟨h1, h2⟩ := hfa
      subst h1
      subst h2
      exact ⟨ha, hl⟩
  · intro hn hmem v hl
    simp only [buildOutbound, List.mem_filterMap]
    exact ⟨hn, hmem, by rw [hl]; rfl⟩
  · intro hb
    simp [buildOutbound, hb]
  · intro hb
    simp [buildOutbound, hb]

/-- A fixture inbound request: a POST under the /users route with a query
    string, one non-allow-listed header and a body. -/
def reqEx : InRequest :=
  ⟨"POST", ("/users/42").toList, ("a=1").toList,
   [("authorization", "Bearer tkn"), ("x-custom", "zzz"),
    ("accept", "application/json")],
   [1, 2, 3]⟩

/-- Witness for claim C8 at the fixture request: method and body come
    through as the claim states. -/
theorem outbound_request_matches_spec_witness :
    (buildOutbound reqEx USER_SERVICE_URL (("/users").toList)).method = "POST"
    ∧ (buildOutbound reqEx USER_SERVICE_URL (("/users").toList)).body
        = some [1, 2, 3] :=
  ⟨(outbound_request_matches_spec reqEx USER_SERVICE_URL (("/users").toList)
      (by decide)).1,
   (outbound_request_matches_spec reqEx USER_SERVICE_URL (("/users").toList)
      (by decide)).2.2.2.2.1 (by decide)⟩

/-! ## Rate limiting (spec-modelled; configured in src/app/main.py) -/

/-- Modelled from the spec: the per-key state of the fixed-window rate
    limiter of spec section 4.5 — the current period-aligned window index
    and the number of requests counted in it. The algorithm itself lives in
    the fastapi-limiter dependency, not in this repository; src/app/main.py
    line 82 only configures it with times=5, seconds=60 on the root
    endpoint. -/
structure RateWindow where
  window : Nat
  count : Nat
deriving DecidableEq, Repr

/-- Modelled from the spec: one allow(key) decision at wall-clock second t.
    The window index is the period-aligned one, t / period. The first
    request in a window opens it with count 1; later requests in the same
    window increment the count; a request is allowed exactly while the
    incremented count stays within the limit. -/
def allowStep (limit period : Nat) (t : Nat) (st : Option RateWindow) :
    Bool × RateWindow :=
  let w := t / period
  match st with
  | none => (decide (1 ≤ limit), ⟨w, 1⟩)
  | some s =>
    if s.window = w then
      let c := s.count + 1
      (decide (c ≤ limit), ⟨w, c⟩)
    else
      (decide (1 ≤ limit), ⟨w, 1⟩)

/-- Runs a sequence of allow(key) decisions for one key from the given
    state, listing each call's decision. -/
def runCalls (limit period : Nat) (st : Option RateWindow) : List Nat → List Bool
  | [] => []
  | t :: ts =>
    let r := allowStep limit period t st
    r.1 :: runCalls limit period (some r.2) ts

/-- Claim C9 (spec-modelled): with limit 5 and period 60 seconds, for any
    six call instants falling in one period-aligned window and a seventh
    falling in a different window, the first five calls are allowed, the
    sixth is rejected, and the first call past the window boundary is
    allowed again; the count opens at 1 on the first request of the
    window. -/
theorem rate_limit_five_per_minute
    (t1 t2 t3 t4 t5 t6 t7 : Nat) (w : Nat)
    (h1 : t1 / 60 = w) (h2 : t2 / 60 = w) (h3 : t3 / 60 = w)
    (h4 : t4 / 60 = w) (h5 : t5 / 60 = w) (h6 : t6 / 60 = w)
    (h7 : t7 / 60 ≠ w) :
    runCalls 5 60 none [t1, t2, t3, t4, t5, t6, t7]
      = [true, true, true, true, true, false, true]
    ∧ (allowStep 5 60 t1 none).2 = ⟨w, 1⟩ := by
  constructor
  · simp [runCalls, allowStep, h1, h2, h3, h4, h5, h6, Ne.symm h7]
  · simp [allowStep, h1]

/-- Witness for claim C9: calls at seconds 0..5 of window 0 and one call at
    second 60 (window 1) are decided exactly as the claim states. -/
theorem rate_limit_five_per_minute_witness :
    runCalls 5 60 none [0, 1, 2, 3, 4, 5, 60]
      = [true, true, true, true, true, false, true] :=
  (rate_limit_five_per_minute 0 1 2 3 4 5 60 0
    (by decide) (by decide) (by decide) (by decide) (by decide) (by decide)
    (by decide)).1

end Gateway
